import Mathlib

/-!
Shallow embedding of `src/components/navigation/navigation.tsx`:
a navigation bar with a wallet-connect widget.

State hooks of the component become fields of `WalletState`; the injected
wallet provider (reached through `window.ethereum` / `ethers.BrowserProvider`)
becomes an explicit `Provider` record whose fallible async calls return
`Except`.  JS numbers that can be `NaN` (the result of `parseInt`) are
modelled as `Option Int` with `none` for `NaN`.  The transient copy
indicator and its `setTimeout` timers are modelled by `CopyState` together
with an `elapse` step that advances time and fires due timers.
-/

namespace Nav

/-- `NetworkInfo` from `@/types/types` as used by the component:
`{ id, name }`.  The `id` is a JS number; `none` models `NaN`
(which `parseInt` returns on unparsable input). -/
structure NetworkInfo where
  id : Option Int
  name : String
deriving DecidableEq, Repr

/-- JS number-to-string rendering for the `Option Int` model:
`NaN` prints as `"NaN"`, integers as usual. -/
def numToStr : Option Int → String
  | none => "NaN"
  | some i => toString i

/-- The component's React state hooks
(`walletAddress`, `error`, `balance`, `network`, `loading`, `anchorEl`)
plus counters for the `accountsChanged` / `chainChanged` listeners that
`connectWallet` registers on the provider with `window.ethereum.on`.
`anchorOpen` models `Boolean(anchorEl)`. -/
structure WalletState where
  walletAddress : Option String
  error : Option String
  balance : Option String
  network : Option NetworkInfo
  loading : Bool
  anchorOpen : Bool
  accountsListeners : Nat
  chainListeners : Nat
deriving DecidableEq, Repr

/-- All `useState` hooks start at `null` / `false` / no listeners. -/
def initialState : WalletState :=
  { walletAddress := none, error := none, balance := none, network := none,
    loading := false, anchorOpen := false,
    accountsListeners := 0, chainListeners := 0 }

/-- The injected wallet provider, as the component uses it through
`ethers.BrowserProvider`: `send("eth_requestAccounts", [])`,
`getBalance(address)` (wei) and `getNetwork()` (chain id and name).
Fallible calls return `Except` with the rejection message. -/
structure Provider where
  requestAccounts : Except String (List String)
  getBalance : String → Except String Nat
  getNetwork : Except String (Int × String)

/-- Value of a hex digit, `none` for any other character. -/
def hexDigitVal (c : Char) : Option Nat :=
  if '0' ≤ c ∧ c ≤ '9' then some (c.toNat - '0'.toNat)
  else if 'a' ≤ c ∧ c ≤ 'f' then some (c.toNat - 'a'.toNat + 10)
  else if 'A' ≤ c ∧ c ≤ 'F' then some (c.toNat - 'A'.toNat + 10)
  else none

/-- JS `parseInt(string, 16)`: skip leading whitespace, read an optional
sign, skip an optional `0x`/`0X` prefix, then read the longest prefix of
hex digits; no digits means `NaN` (`none`). -/
def parseInt16 (s : String) : Option Int :=
  let cs := s.data.dropWhile (fun c => c.isWhitespace)
  let signAndRest : Int × List Char :=
    match cs with
    | '-' :: rest => (-1, rest)
    | '+' :: rest => (1, rest)
    | _ => (1, cs)
  let sign := signAndRest.1
  let cs₁ :=
    match signAndRest.2 with
    | '0' :: 'x' :: rest => rest
    | '0' :: 'X' :: rest => rest
    | rest => rest
  let ds := cs₁.takeWhile (fun c => (hexDigitVal c).isSome)
  if ds = [] then none
  else some (sign * (ds.foldl (fun acc c => 16 * acc + ((hexDigitVal c).getD 0 : Int)) 0))

/-- Drop trailing `'0'` characters (decimal-fraction trimming of
`ethers.formatEther`). -/
def stripTrailingZeros (s : List Char) : List Char :=
  (s.reverse.dropWhile (fun c => c = '0')).reverse

/-- Left-pad with `'0'` to length `n`. -/
def padLeftZeros (n : Nat) (s : List Char) : List Char :=
  List.replicate (n - s.length) '0' ++ s

/-- `ethers.formatEther(wei)`: the wei amount as a decimal ether string,
18 fractional digits with trailing zeros trimmed but at least one
fractional digit kept (`10^18` wei renders as `"1.0"`). -/
def formatEther (wei : Nat) : String :=
  let whole := wei / 10 ^ 18
  let frac := wei % 10 ^ 18
  let fracDigits := stripTrailingZeros (padLeftZeros 18 (toString frac).data)
  let fracDigits := if fracDigits = [] then ['0'] else fracDigits
  toString whole ++ "." ++ String.mk fracDigits

/-- JS `str.substring(0, n)`: the first `n` characters (all of them when
the string is shorter). -/
def jsSubstringTo (s : String) (n : Nat) : String :=
  String.mk (s.data.take n)

/-- `fetchWalletData(address)`: sets `loading`, fetches the balance and
stores `formatEther(balance).substring(0, 6)`, then fetches the network
and stores `{ id: Number(network.chainId), name: network.name }` and
clears `error`; any provider failure is caught and sets
`error = "Failed to load wallet data"`, leaving the fields already (or
not yet) written as they are; `finally` clears `loading`. -/
def fetchWalletData (p : Provider) (address : String) (s : WalletState) : WalletState :=
  let s₁ := { s with loading := true }
  match p.getBalance address with
  | .error _ =>
      { s₁ with error := some "Failed to load wallet data", loading := false }
  | .ok bal =>
      let s₂ := { s₁ with balance := some (jsSubstringTo (formatEther bal) 6) }
      match p.getNetwork with
      | .error _ =>
          { s₂ with error := some "Failed to load wallet data", loading := false }
      | .ok (chainId, name) =>
          { s₂ with network := some ⟨some chainId, name⟩, error := none, loading := false }

/-- `handleClose()`: closes the account menu. -/
def handleClose (s : WalletState) : WalletState :=
  { s with anchorOpen := false }

/-- `handleDisconnect()`: clears `walletAddress`, `balance` and `network`,
closes the menu, and calls `removeAllListeners` for `accountsChanged` and
`chainChanged` on the provider (a no-op when no provider is present, in
which case the listener counts are already 0). -/
def handleDisconnect (s : WalletState) : WalletState :=
  let s₁ := { s with walletAddress := none, balance := none, network := none }
  let s₂ := handleClose s₁
  { s₂ with accountsListeners := 0, chainListeners := 0 }

/-- The `accountsChanged` listener registered by `connectWallet`:
a non-empty list adopts the first account and refreshes its data,
an empty list disconnects. -/
def handleAccountsChanged (p : Provider) (newAccounts : List String)
    (s : WalletState) : WalletState :=
  match newAccounts with
  | a :: _ => fetchWalletData p a { s with walletAddress := some a }
  | [] => handleDisconnect s

/-- The `chainChanged` handler from the `useEffect` hook:
`parseInt(chainId, 16)`, set `network` to the synthesized
`Unknown Network (<id>)` form, and, when an address is active, run a full
`fetchWalletData` refresh for it. -/
def handleChainChanged (p : Provider) (chainId : String) (s : WalletState) : WalletState :=
  let newChainId := parseInt16 chainId
  let s₁ := { s with
    network := some ⟨newChainId, "Unknown Network (" ++ numToStr newChainId ++ ")"⟩ }
  match s₁.walletAddress with
  | some a => fetchWalletData p a s₁
  | none => s₁

/-- The `chainChanged` listener registered inside `connectWallet`
(unlike the `useEffect` handler, it does not refresh wallet data). -/
def connectChainListener (chainId : String) (s : WalletState) : WalletState :=
  let newChainId := parseInt16 chainId
  { s with
    network := some ⟨newChainId, "Unknown Network (" ++ numToStr newChainId ++ ")"⟩ }

/-- `connectWallet()`: with no injected provider the guard throws
`"Please install MetaMask to continue"`, which the `catch` stores in
`error` (and `finally` clears `loading`).  With a provider it sets
`loading`, requests accounts, and on a non-empty result adopts the first
account, runs `fetchWalletData`, and registers one new `accountsChanged`
and one new `chainChanged` listener with `window.ethereum.on`; an empty
result does nothing further; a rejected request stores its message in
`error`.  `finally` always clears `loading`. -/
def connectWallet (p : Option Provider) (s : WalletState) : WalletState :=
  match p with
  | none =>
      { s with error := some "Please install MetaMask to continue", loading := false }
  | some pr =>
      let s₁ := { s with loading := true }
      match pr.requestAccounts with
      | .error msg => { s₁ with error := some msg, loading := false }
      | .ok [] => { s₁ with loading := false }
      | .ok (a :: _) =>
          let s₂ := { s₁ with walletAddress := some a }
          let s₃ := fetchWalletData pr a s₂
          let s₄ := { s₃ with accountsListeners := s₃.accountsListeners + 1,
                              chainListeners := s₃.chainListeners + 1 }
          { s₄ with loading := false }

/-- `shortenAddress(address)`:
`address.substring(0, 4) + "..." + address.substring(address.length - 4)`. -/
def shortenAddress (address : String) : String :=
  String.mk (address.data.take 4) ++ "..." ++
    String.mk (address.data.drop (address.length - 4))

/-- State of the transient copy indicator: the `copied` flag, the pending
`setTimeout` delays (remaining milliseconds until each scheduled
`setCopied(false)` fires) and the clipboard contents.  The source never
calls `clearTimeout`, so every scheduled timer stays pending. -/
structure CopyState where
  copied : Bool
  timers : List Nat
  clipboard : Option String
deriving DecidableEq, Repr

/-- Menu and indicator start closed and clear. -/
def initialCopyState : CopyState :=
  { copied := false, timers := [], clipboard := none }

/-- `copyToClipboard()`: when an address is connected, write it to the
clipboard, set `copied`, and schedule `setTimeout(() => setCopied(false), 2000)`.
The previously pending timer (if any) is left pending. -/
def copyToClipboard (walletAddress : Option String) (c : CopyState) : CopyState :=
  match walletAddress with
  | some addr =>
      { copied := true, timers := c.timers ++ [2000], clipboard := some addr }
  | none => c

/-- Let `d` milliseconds pass with no further interaction: every pending
timer whose remaining delay is at most `d` fires its `setCopied(false)`
callback; the rest keep ticking down. -/
def elapse (d : Nat) (c : CopyState) : CopyState :=
  { copied := if c.timers.any (fun t => t ≤ d) then false else c.copied,
    timers := (c.timers.filter (fun t => d < t)).map (fun t => t - d),
    clipboard := c.clipboard }

/-- `NavigationData` from `@/types/types`: a destination path and a label. -/
structure NavigationData where
  path : String
  label : String
deriving DecidableEq, Repr

/-- The color a navigation link is rendered with: the `sx` object sets
`color: currentPath === destination ? "" : "white"` and then the spread
`...destination === "/" && \x7b color: "primary.main" \x7d` overrides it
whenever the destination is `"/"`. -/
def navLinkColor (currentPath destination : String) : String :=
  let base := if currentPath = destination then "" else "white"
  if destination = "/" then "primary.main" else base

/-- A rendered navigation link: `href`, label text and effective color. -/
structure RenderedLink where
  href : String
  label : String
  color : String
deriving DecidableEq, Repr

/-- `navigations.map(...)`: one rendered link per entry, in order. -/
def renderNavigation (navs : List NavigationData) (currentPath : String) :
    List RenderedLink :=
  navs.map (fun n => ⟨n.path, n.label, navLinkColor currentPath n.path⟩)

/-- Events the wallet widget reacts to while mounted. -/
inductive NavEvent where
  | connect
  | accountsChanged (accounts : List String)
  | chainChanged (chainId : String)
  | disconnect
deriving DecidableEq, Repr

/-- One reaction step of the widget.  The provider-pushed events
(`accountsChanged`, `chainChanged`) can only arrive when a provider is
present, since only then are listeners registered. -/
def step (p : Option Provider) (e : NavEvent) (s : WalletState) : WalletState :=
  match e with
  | .connect => connectWallet p s
  | .accountsChanged l =>
      match p with
      | some pr => handleAccountsChanged pr l s
      | none => s
  | .chainChanged c =>
      match p with
      | some pr => handleChainChanged pr c s
      | none => s
  | .disconnect => handleDisconnect s

/-! ### Helper lemmas -/

/-- `fetchWalletData` never touches the listener counters. -/
theorem fetchWalletData_listeners (p : Provider) (a : String) (s : WalletState) :
    (fetchWalletData p a s).accountsListeners = s.accountsListeners ∧
    (fetchWalletData p a s).chainListeners = s.chainListeners := by
  unfold fetchWalletData
  cases p.getBalance a with
  | error e => simp
  | ok b =>
    cases hn : p.getNetwork with
    | error e => simp
    | ok v => cases v; simp

/-- `fetchWalletData` never touches the wallet address. -/
theorem fetchWalletData_address (p : Provider) (a : String) (s : WalletState) :
    (fetchWalletData p a s).walletAddress = s.walletAddress := by
  unfold fetchWalletData
  cases p.getBalance a with
  | error e => simp
  | ok b =>
    cases hn : p.getNetwork with
    | error e => simp
    | ok v => cases v; simp

/-- Every `fetchWalletData` call ends with `loading` cleared. -/
theorem fetchWalletData_loading (p : Provider) (a : String) (s : WalletState) :
    (fetchWalletData p a s).loading = false := by
  unfold fetchWalletData
  cases p.getBalance a with
  | error e => simp
  | ok b =>
    cases hn : p.getNetwork with
    | error e => simp
    | ok v => cases v; simp

/-- Every `connectWallet` call ends with `loading` cleared. -/
theorem connectWallet_loading (p : Option Provider) (s : WalletState) :
    (connectWallet p s).loading = false := by
  cases p with
  | none => rfl
  | some pr =>
    unfold connectWallet
    cases hacc : pr.requestAccounts with
    | error msg => simp [hacc]
    | ok accounts => cases accounts with
      | nil => simp [hacc]
      | cons a rest => simp [hacc]

/-! ### Claims -/

/-- C8: for every address string of length at least 8, `shortenAddress`
returns the first 4 characters, then `"..."`, then the last 4 characters;
in particular `shortenAddress "0x1234567890abcdef" = "0x12...cdef"`. -/
theorem shortenAddress_spec (a : String) (h : 8 ≤ a.length) :
    (∃ f l : String, shortenAddress a = f ++ "..." ++ l ∧
      f.length = 4 ∧ l.length = 4 ∧ f.data <+: a.data ∧ l.data <:+ a.data) ∧
    shortenAddress "0x1234567890abcdef" = "0x12...cdef" := by
  constructor
  · refine ⟨String.mk (a.data.take 4), String.mk (a.data.drop (a.length - 4)),
      rfl, ?_, ?_, ?_, ?_⟩
    · have hlen : a.length = a.data.length := rfl
      show (a.data.take 4).length = 4
      rw [List.length_take]
      omega
    · have hlen : a.length = a.data.length := rfl
      show (a.data.drop (a.length - 4)).length = 4
      rw [List.length_drop]
      omega
    · exact List.take_prefix 4 a.data
    · exact List.drop_suffix (a.length - 4) a.data
  · decide

/-- Witness for C8 at the address from the spec's example. -/
theorem shortenAddress_spec_witness :
    shortenAddress "0x1234567890abcdef" = "0x12...cdef" :=
  (shortenAddress_spec "0x1234567890abcdef" (by decide)).2

/-- C5: with no injected provider, `connectWallet` surfaces the
install-MetaMask message and an empty session stays empty (address,
balance and network all remain `null`). -/
theorem connectWallet_noProvider (s : WalletState)
    (ha : s.walletAddress = none) (hb : s.balance = none) (hn : s.network = none) :
    (connectWallet none s).error = some "Please install MetaMask to continue" ∧
    (connectWallet none s).walletAddress = none ∧
    (connectWallet none s).balance = none ∧
    (connectWallet none s).network = none := by
  refine ⟨rfl, ?_, ?_, ?_⟩ <;> simpa [connectWallet]

/-- Witness for C5 at the initial (empty) session. -/
theorem connectWallet_noProvider_witness :
    (connectWallet none initialState).error = some "Please install MetaMask to continue" ∧
    (connectWallet none initialState).walletAddress = none ∧
    (connectWallet none initialState).balance = none ∧
    (connectWallet none initialState).network = none :=
  connectWallet_noProvider initialState rfl rfl rfl

/-- C10: when the account request resolves with an empty list,
`connectWallet` is a silent no-op: the empty session stays empty, no
error is set, no listeners are registered, and `loading` is cleared. -/
theorem connectWallet_emptyAccounts (p : Provider) (s : WalletState)
    (hacc : p.requestAccounts = .ok [])
    (ha : s.walletAddress = none) (hb : s.balance = none)
    (hn : s.network = none) (he : s.error = none) :
    (connectWallet (some p) s).walletAddress = none ∧
    (connectWallet (some p) s).balance = none ∧
    (connectWallet (some p) s).network = none ∧
    (connectWallet (some p) s).error = none ∧
    (connectWallet (some p) s).loading = false ∧
    (connectWallet (some p) s).accountsListeners = s.accountsListeners ∧
    (connectWallet (some p) s).chainListeners = s.chainListeners := by
  refine ⟨?_, ?_, ?_, ?_, ?_, ?_, ?_⟩ <;> simp [connectWallet, hacc, ha, hb, hn, he]

/-- Witness for C10 with a concrete provider that returns no accounts. -/
theorem connectWallet_emptyAccounts_witness :
    (connectWallet (some ⟨.ok [], fun _ => .error "e", .error "e"⟩) initialState).walletAddress
        = none ∧
    (connectWallet (some ⟨.ok [], fun _ => .error "e", .error "e"⟩) initialState).balance
        = none ∧
    (connectWallet (some ⟨.ok [], fun _ => .error "e", .error "e"⟩) initialState).network
        = none ∧
    (connectWallet (some ⟨.ok [], fun _ => .error "e", .error "e"⟩) initialState).error
        = none ∧
    (connectWallet (some ⟨.ok [], fun _ => .error "e", .error "e"⟩) initialState).loading
        = false ∧
    (connectWallet (some ⟨.ok [], fun _ => .error "e", .error "e"⟩) initialState).accountsListeners
        = initialState.accountsListeners ∧
    (connectWallet (some ⟨.ok [], fun _ => .error "e", .error "e"⟩) initialState).chainListeners
        = initialState.chainListeners :=
  connectWallet_emptyAccounts ⟨.ok [], fun _ => .error "e", .error "e"⟩ initialState
    rfl rfl rfl rfl rfl

/-- C6: `onAccountsChanged([])` is exactly a disconnect, and
`handleDisconnect` clears address, balance and network together in the
same step, for every prior state. -/
theorem accountsChangedEmpty_disconnects (p : Provider) (s : WalletState) :
    handleAccountsChanged p [] s = handleDisconnect s ∧
    (handleDisconnect s).walletAddress = none ∧
    (handleDisconnect s).balance = none ∧
    (handleDisconnect s).network = none := by
  refine ⟨rfl, ?_, ?_, ?_⟩ <;> simp [handleDisconnect, handleClose]

/-- `n` consecutive `connectWallet` calls with the same provider and no
intervening disconnect. -/
def iterateConnect (p : Provider) : Nat → WalletState → WalletState
  | 0, s => s
  | n + 1, s => iterateConnect p n (connectWallet (some p) s)

/-- A successful connect (non-empty account list) adds exactly one
listener per event, removing none. -/
theorem connectWallet_adds_listeners (p : Provider) (a : String) (rest : List String)
    (hacc : p.requestAccounts = .ok (a :: rest)) (s : WalletState) :
    (connectWallet (some p) s).accountsListeners = s.accountsListeners + 1 ∧
    (connectWallet (some p) s).chainListeners = s.chainListeners + 1 := by
  have h := fetchWalletData_listeners p a
    { s with walletAddress := some a, loading := true }
  simp only [connectWallet]
  rw [hacc]
  exact ⟨by simp [h.1], by simp [h.2]⟩

/-- C7: starting with no listeners, `n` connect calls against a provider
that keeps granting the same non-empty account list leave `n` registered
`accountsChanged` and `n` registered `chainChanged` listeners — duplicate
subscriptions accumulate because none are removed. -/
theorem connect_listener_leak (p : Provider) (a : String) (rest : List String)
    (hacc : p.requestAccounts = .ok (a :: rest)) (n : Nat) (s : WalletState)
    (h0 : s.accountsListeners = 0) (h1 : s.chainListeners = 0) :
    (iterateConnect p n s).accountsListeners = n ∧
    (iterateConnect p n s).chainListeners = n := by
  have key : ∀ m t, (iterateConnect p m t).accountsListeners = t.accountsListeners + m ∧
      (iterateConnect p m t).chainListeners = t.chainListeners + m := by
    intro m
    induction m with
    | zero => intro t; simp [iterateConnect]
    | succ k ih =>
      intro t
      have hstep := connectWallet_adds_listeners p a rest hacc t
      have hk := ih (connectWallet (some p) t)
      refine ⟨?_, ?_⟩ <;> simp [iterateConnect, hk.1, hk.2, hstep.1, hstep.2] <;> omega
  rcases key n s with ⟨ka, kc⟩
  rw [ka, kc, h0, h1, Nat.zero_add]
  exact ⟨rfl, rfl⟩

/-- Witness for C7: two reconnects against a concrete provider leave two
listeners per event. -/
theorem connect_listener_leak_witness :
    (iterateConnect ⟨.ok ["0xabc"], fun _ => .ok 0, .ok (1, "mainnet")⟩ 2
        initialState).accountsListeners = 2 ∧
    (iterateConnect ⟨.ok ["0xabc"], fun _ => .ok 0, .ok (1, "mainnet")⟩ 2
        initialState).chainListeners = 2 :=
  connect_listener_leak ⟨.ok ["0xabc"], fun _ => .ok 0, .ok (1, "mainnet")⟩
    "0xabc" [] rfl 2 initialState rfl rfl

/-- C9: every `fetchWalletData` and every `connectWallet` call — on
success and on failure alike — returns with `loading` cleared, and no
reaction step of the widget leaves `loading` set when it was clear in the
idle state before it. -/
theorem loading_invariant (p : Provider) (po : Option Provider) (a : String)
    (e : NavEvent) (s : WalletState) :
    (fetchWalletData p a s).loading = false ∧
    (connectWallet po s).loading = false ∧
    (s.loading = false → (step po e s).loading = false) := by
  refine ⟨fetchWalletData_loading p a s, connectWallet_loading po s, ?_⟩
  intro hidle
  cases e with
  | connect => exact connectWallet_loading po s
  | accountsChanged l =>
    cases po with
    | none => exact hidle
    | some pr =>
      cases l with
      | nil => simpa [step, handleAccountsChanged, handleDisconnect, handleClose] using hidle
      | cons b bs => exact fetchWalletData_loading pr b _
  | chainChanged c =>
    cases po with
    | none => exact hidle
    | some pr =>
      show (handleChainChanged pr c s).loading = false
      unfold handleChainChanged
      cases hw : s.walletAddress with
      | none => simpa using hidle
      | some b => simpa [hw] using fetchWalletData_loading pr b _
  | disconnect => simpa [step, handleDisconnect, handleClose] using hidle

/-- Witness for C9 at concrete inputs. -/
theorem loading_invariant_witness :
    (fetchWalletData ⟨.ok [], fun _ => .error "e", .error "e"⟩ "0xabc"
        initialState).loading = false ∧
    (connectWallet none initialState).loading = false ∧
    (step none NavEvent.disconnect initialState).loading = false := by
  have h := loading_invariant ⟨.ok [], fun _ => .error "e", .error "e"⟩ none "0xabc"
    NavEvent.disconnect initialState
  exact ⟨h.1, h.2.1, h.2.2 rfl⟩

/-- C4: for every hex chain-id string, the `chainChanged` handler parses
it in base 16 and sets the network to id `n` with name
`Unknown Network (n)`; with no active address that is all it does, and
with an active address it additionally runs the full `fetchWalletData`
refresh for that address on the updated state.  In particular `"0x1"`
parses to 1. -/
theorem handleChainChanged_spec (p : Provider) (s : WalletState) (cid : String)
    (n : Int) (hparse : parseInt16 cid = some n) :
    (s.walletAddress = none →
      handleChainChanged p cid s =
        { s with network := some ⟨some n, "Unknown Network (" ++ toString n ++ ")"⟩ }) ∧
    (∀ a, s.walletAddress = some a →
      handleChainChanged p cid s =
        fetchWalletData p a
          { s with network := some ⟨some n, "Unknown Network (" ++ toString n ++ ")"⟩ }) ∧
    parseInt16 "0x1" = some 1 := by
  unfold handleChainChanged
  rw [hparse]
  refine ⟨?_, ?_, by decide⟩
  · intro hw
    simp [hw, numToStr]
  · intro a hw
    simp [hw, numToStr]

/-- Witness for C4: `"0x1"` with no active address yields network id 1
named `Unknown Network (1)`. -/
theorem handleChainChanged_witness :
    handleChainChanged ⟨.ok [], fun _ => .error "e", .error "e"⟩ "0x1" initialState =
      { initialState with network := some ⟨some 1, "Unknown Network (1)"⟩ } := by
  have h := (handleChainChanged_spec ⟨.ok [], fun _ => .error "e", .error "e"⟩
    initialState "0x1" 1 (by decide)).1 rfl
  simpa using h

/-- C1 counterexample: the entry with destination `"/"` is rendered
`primary.main` both when it is current (current path `"/"`) and when it
is not (current path `"/about"`), so no distinct visual treatment marks
it as current; and two current entries (`"/"` and `"/about"`, each equal
to the current path) receive different treatments, refuting
current-marking "regardless of what the destination is". -/
theorem navCurrent_counterexample :
    (renderNavigation [⟨"/", "Home"⟩, ⟨"/about", "About"⟩] "/").map RenderedLink.color
      = ["primary.main", "white"] ∧
    (renderNavigation [⟨"/", "Home"⟩, ⟨"/about", "About"⟩] "/about").map RenderedLink.color
      = ["primary.main", ""] ∧
    navLinkColor "/" "/" = navLinkColor "/about" "/" ∧
    navLinkColor "/" "/" ≠ navLinkColor "/about" "/about" := by
  decide

/-- C1 amended: each entry is rendered as a link whose color marks it as
current (empty color overriding the default white) exactly when its
destination equals the current path — except an entry with destination
`"/"`, which is always colored `primary.main` regardless of the current
path and is therefore never distinctly marked current. -/
theorem navCurrent_amended (navs : List NavigationData) (cp : String)
    (n : NavigationData) (hmem : n ∈ navs) :
    (⟨n.path, n.label, navLinkColor cp n.path⟩ : RenderedLink) ∈ renderNavigation navs cp ∧
    (n.path ≠ "/" → ((navLinkColor cp n.path = "" ↔ cp = n.path) ∧
                     (navLinkColor cp n.path = "white" ↔ cp ≠ n.path))) ∧
    (n.path = "/" → navLinkColor cp n.path = "primary.main") := by
  refine ⟨List.mem_map_of_mem _ hmem, ?_, ?_⟩
  · intro hroot
    unfold navLinkColor
    by_cases hcur : cp = n.path <;> simp [hroot, hcur]
  · intro hroot
    simp [navLinkColor, hroot]

/-- Witness for C1 (amended) at a concrete entry list and current path. -/
theorem navCurrent_amended_witness :
    (⟨"/about", "About", navLinkColor "/about" "/about"⟩ : RenderedLink) ∈
        renderNavigation [⟨"/about", "About"⟩] "/about" ∧
    ("/about" ≠ "/" → ((navLinkColor "/about" "/about" = "" ↔ "/about" = "/about") ∧
                       (navLinkColor "/about" "/about" = "white" ↔ "/about" ≠ "/about"))) ∧
    ("/about" = "/" → navLinkColor "/about" "/about" = "primary.main") := by
  have h := navCurrent_amended [⟨"/about", "About"⟩] "/about" ⟨"/about", "About"⟩
    (by decide)
  simpa using h

/-- C2 counterexample: copy at time 0 (indicator set), second copy at
1500ms (indicator still set), then 500ms later — only 500ms after the
most recent copy, well inside its 2000ms window — the first copy's
un-cancelled timer fires and clears the indicator, where the claim
requires it to still be set. -/
theorem copied_counterexample :
    (copyToClipboard (some "0xabc") initialCopyState).copied = true ∧
    (elapse 1500 (copyToClipboard (some "0xabc") initialCopyState)).copied = true ∧
    (copyToClipboard (some "0xabc")
        (elapse 1500 (copyToClipboard (some "0xabc") initialCopyState))).copied = true ∧
    (elapse 500 (copyToClipboard (some "0xabc")
        (elapse 1500 (copyToClipboard (some "0xabc") initialCopyState)))).copied = false := by
  decide

/-- C2 amended: `copyToClipboard()` sets the indicator, and with no
further copy it reverts once 2000ms elapse; but each copy schedules an
independent 2000ms `setCopied(false)` timer and a pending timer is never
cancelled, so after a second copy `a` ms after the first (`a < 2000`) the
indicator is clear as soon as `a + b ≥ 2000` — that is, 2000ms after the
FIRST copy, even when fewer than 2000ms have passed since the second. -/
theorem copied_amended (addr : String) (a b : Nat) (ha : a < 2000) :
    (copyToClipboard (some addr) initialCopyState).copied = true ∧
    (elapse b (copyToClipboard (some addr) initialCopyState)).copied
      = decide (b < 2000) ∧
    (elapse b (copyToClipboard (some addr)
        (elapse a (copyToClipboard (some addr) initialCopyState)))).copied
      = decide (a + b < 2000) := by
  have hfirst : copyToClipboard (some addr) initialCopyState =
      { copied := true, timers := [2000], clipboard := some addr } := rfl
  refine ⟨rfl, ?_, ?_⟩
  · rw [hfirst]
    by_cases hb : 2000 ≤ b
    · simp [elapse, hb]
    · simp [elapse, hb]
      omega
  · rw [hfirst]
    have hsecond : copyToClipboard (some addr)
        (elapse a { copied := true, timers := [2000], clipboard := some addr }) =
        { copied := true, timers := [2000 - a, 2000], clipboard := some addr } := by
      simp [elapse, copyToClipboard, Nat.not_le.mpr ha, Nat.lt_of_lt_of_le ha (le_refl 2000)]
    rw [hsecond]
    by_cases hab : a + b < 2000
    · have h1 : ¬ (2000 - a ≤ b) := by omega
      have h2 : ¬ (2000 ≤ b) := by omega
      simp [elapse, h1, h2, hab]
    · by_cases h2 : 2000 ≤ b
      · simp [elapse, h2, hab]
      · have h1 : 2000 - a ≤ b := by omega
        simp [elapse, h1, hab]

/-- Witness for C2 (amended) at `a = 1500`, `b = 400`. -/
theorem copied_amended_witness :
    (copyToClipboard (some "0xabc") initialCopyState).copied = true ∧
    (elapse 400 (copyToClipboard (some "0xabc") initialCopyState)).copied
      = decide (400 < 2000) ∧
    (elapse 400 (copyToClipboard (some "0xabc")
        (elapse 1500 (copyToClipboard (some "0xabc") initialCopyState)))).copied
      = decide (1500 + 400 < 2000) :=
  copied_amended "0xabc" 1500 400 (by decide)

/-- C3 counterexample: a provider whose balance fetch succeeds (0 wei)
and whose network fetch fails.  After the refresh `lastError` is set, yet
the balance no longer holds its prior value (`none` before, `"0.0"`
after) while the network kept its prior value — the failed refresh
updated one of the two fields, refuting atomicity and refuting that all
fields hold their prior values. -/
theorem fetch_atomicity_counterexample :
    ({ initialState with
        walletAddress := some "0xabc", network := some ⟨some 1, "mainnet"⟩ } : WalletState).balance = none ∧
    (fetchWalletData ⟨.ok [], fun _ => .ok 0, .error "boom"⟩ "0xabc"
        { initialState with
          walletAddress := some "0xabc", network := some ⟨some 1, "mainnet"⟩ }).error
      = some "Failed to load wallet data" ∧
    (fetchWalletData ⟨.ok [], fun _ => .ok 0, .error "boom"⟩ "0xabc"
        { initialState with
          walletAddress := some "0xabc", network := some ⟨some 1, "mainnet"⟩ }).balance = some "0.0" ∧
    (fetchWalletData ⟨.ok [], fun _ => .ok 0, .error "boom"⟩ "0xabc"
        { initialState with
          walletAddress := some "0xabc", network := some ⟨some 1, "mainnet"⟩ }).network = some ⟨some 1, "mainnet"⟩ := by
  refine ⟨rfl, ?_, ?_, ?_⟩ <;> rfl

/-- C3 amended: when a refresh fails, `lastError` is set and the address
and network keep their prior values; the balance keeps its prior value
when the balance fetch itself failed, but holds the newly fetched value
when the failure occurred in the subsequent network fetch — the two
fields are updated one at a time, not atomically. -/
theorem fetch_error_amended (p : Provider) (a : String) (s : WalletState) (msg : String) :
    (p.getBalance a = .error msg →
      fetchWalletData p a s =
        { s with error := some "Failed to load wallet data", loading := false }) ∧
    (∀ b, p.getBalance a = .ok b → p.getNetwork = .error msg →
      (fetchWalletData p a s).walletAddress = s.walletAddress ∧
      (fetchWalletData p a s).network = s.network ∧
      (fetchWalletData p a s).balance = some (jsSubstringTo (formatEther b) 6) ∧
      (fetchWalletData p a s).error = some "Failed to load wallet data" ∧
      (fetchWalletData p a s).loading = false) := by
  constructor
  · intro hbal
    unfold fetchWalletData
    rw [hbal]
  · intro b hbal hnet
    unfold fetchWalletData
    rw [hbal, hnet]
    exact ⟨rfl, rfl, rfl, rfl, rfl⟩

/-- Witness for C3 (amended): a concrete provider whose balance fetch
fails leaves the whole session untouched apart from the error message. -/
theorem fetch_error_amended_witness :
    fetchWalletData ⟨.ok [], fun _ => .error "boom", .ok (1, "mainnet")⟩ "0xabc"
        initialState =
      { initialState with error := some "Failed to load wallet data", loading := false } :=
  (fetch_error_amended ⟨.ok [], fun _ => .error "boom", .ok (1, "mainnet")⟩
    "0xabc" initialState "boom").1 rfl

end Nav
